import Mathlib

/-!
# Verification of the contribution intake-and-queue pipeline

Shallow embedding of the SMS intake service (`src/sms/main.py`) of the
mathforge repository: the subscriber registry, the problem catalog, the
Redis-backed work queue (`rpush` / `blpop` on the `tasks` list), the intake
endpoint `sms_reply`, the problem-registration endpoint `add_problem`, and
one iteration of the background worker loop `process_tasks`.

Strings are modelled as `List Char`.  External collaborators (the OpenAI
clarifier, the Twilio send, the database commit, the Redis push) are
modelled as an explicit environment `Env` whose fields give the outcome of
each external call; the endpoint is a pure function of the environment,
the request, and the durable state.
-/

namespace MathForge

/-- Python whitespace characters recognised by `str.strip()` (ASCII subset). -/
def isPySpace (c : Char) : Bool :=
  c == ' ' || c == '\t' || c == '\n' || c == '\x0d' || c == '\x0b' || c == '\x0c'

/-- Model of Python `str.strip()`: drop leading and trailing whitespace. -/
def pyStrip (l : List Char) : List Char :=
  ((l.dropWhile isPySpace).reverse.dropWhile isPySpace).reverse

/-- Model of Python `s.split(sep, 1)` when `sep` occurs in `s`:
`splitFirst sep l = some (before, after)` splits at the FIRST occurrence
of `sep`; `none` when `sep` does not occur (`sep in s` is false). -/
def splitFirst (sep : Char) : List Char → Option (List Char × List Char)
  | [] => none
  | c :: cs =>
    if c = sep then some ([], cs)
    else (splitFirst sep cs).map (fun p => (c :: p.1, p.2))

/-- Row of the `subscribers` table (`class Subscriber`): `phone` is the primary
key, `active` defaults to true. -/
structure Subscriber where
  phone : List Char
  active : Bool
deriving DecidableEq, Repr

/-- Row of the `problems` table (`class Problem`): autoincremented integer `id`,
`name` carries a `unique=True` constraint, `active` defaults to true. -/
structure Problem where
  id : Nat
  name : List Char
  description : List Char
  active : Bool
deriving DecidableEq, Repr

/-- Model of `db.query(Subscriber).filter_by(phone=From).first()`. -/
def findSubscriber : List Subscriber → List Char → Option Subscriber
  | [], _ => none
  | s :: rest, ph => if s.phone = ph then some s else findSubscriber rest ph

/-! ## JSON serialization of queue items

The intake endpoint pushes
`json.dumps({'phone': From, 'problem_id': pid.strip(), 'contrib': clarified})`
and the worker reads it back with `json.loads(item)` followed by
`data['phone']` / `data['problem_id']` / `data['contrib']`.  We model the
`json` module's serialization of this three-string-field object: string
escaping of `"` and `\`, the short escapes for the control characters that
have them, and `\u00XX` for the remaining control characters.  (Python's
default `ensure_ascii=True` additionally `\u`-escapes non-ASCII characters
in transit; this changes only the wire bytes, not the decoded values, so
the model keeps non-ASCII characters literal.)  The decoder accepts the
encoder's output; anything else may be rejected, which models both a
`json.JSONDecodeError` and a decoded value of the wrong shape. -/

/-- Lowercase hexadecimal digit for `n < 16`, as in Python's `json` output. -/
def hexDigit (n : Nat) : Char :=
  if n < 10 then Char.ofNat (48 + n) else Char.ofNat (87 + n)

/-- Numeric value of a hexadecimal digit character, `none` otherwise. -/
def hexVal (c : Char) : Option Nat :=
  if 48 ≤ c.toNat ∧ c.toNat ≤ 57 then some (c.toNat - 48)
  else if 97 ≤ c.toNat ∧ c.toNat ≤ 102 then some (c.toNat - 87)
  else if 65 ≤ c.toNat ∧ c.toNat ≤ 70 then some (c.toNat - 55)
  else none

/-- JSON escaping of a single character inside a string literal, following
`json.dumps`: `\"`, `\\`, the short escapes `\b \f \n \r \t`, and `\u00XX`
for the other control characters below U+0020. -/
def escChar (c : Char) : List Char :=
  if c = '"' then ['\\', '"']
  else if c = '\\' then ['\\', '\\']
  else if c = '\x08' then ['\\', 'b']
  else if c = '\x0c' then ['\\', 'f']
  else if c = '\n' then ['\\', 'n']
  else if c = '\x0d' then ['\\', 'r']
  else if c = '\t' then ['\\', 't']
  else if c.toNat < 32 then
    ['\\', 'u', '0', '0', hexDigit (c.toNat / 16), hexDigit (c.toNat % 16)]
  else [c]

/-- JSON escaping of a whole string body. -/
def escString : List Char → List Char
  | [] => []
  | c :: cs => escChar c ++ escString cs

/-- JSON string-body parser: consumes characters up to and including the
closing `"` and returns the decoded body together with the rest of the
input.  Mirrors `json.loads` string decoding (strict mode: raw control
characters are rejected). -/
def parseJStr : List Char → Option (List Char × List Char)
  | [] => none
  | c :: rest =>
    if c = '"' then some ([], rest)
    else if c = '\\' then
      match rest with
      | [] => none
      | e :: rest2 =>
        if e = '"' then (parseJStr rest2).map (fun p => ('"' :: p.1, p.2))
        else if e = '\\' then (parseJStr rest2).map (fun p => ('\\' :: p.1, p.2))
        else if e = '/' then (parseJStr rest2).map (fun p => ('/' :: p.1, p.2))
        else if e = 'b' then (parseJStr rest2).map (fun p => ('\x08' :: p.1, p.2))
        else if e = 'f' then (parseJStr rest2).map (fun p => ('\x0c' :: p.1, p.2))
        else if e = 'n' then (parseJStr rest2).map (fun p => ('\n' :: p.1, p.2))
        else if e = 'r' then (parseJStr rest2).map (fun p => ('\x0d' :: p.1, p.2))
        else if e = 't' then (parseJStr rest2).map (fun p => ('\t' :: p.1, p.2))
        else if e = 'u' then
          match rest2 with
          | h1 :: h2 :: h3 :: h4 :: rest3 =>
            match hexVal h1, hexVal h2, hexVal h3, hexVal h4 with
            | some a, some b, some c2, some d =>
              (parseJStr rest3).map
                (fun p => (Char.ofNat (((a * 16 + b) * 16 + c2) * 16 + d) :: p.1, p.2))
            | _, _, _, _ => none
          | _ => none
        else none
    else if c.toNat < 32 then none
    else (parseJStr rest).map (fun p => (c :: p.1, p.2))

/-- Consume an expected literal from the front of the input. -/
def expectLit : List Char → List Char → Option (List Char)
  | [], rest => some rest
  | c :: cs, d :: rest => if c = d then expectLit cs rest else none
  | _ :: _, [] => none

/-- The queue item record: the decoded form of one entry of the Redis
`tasks` list, with the fields the worker reads. -/
structure TaskItem where
  phone : List Char
  problem_id : List Char
  contrib : List Char
deriving DecidableEq, Repr

/-- Model of `json.dumps({'phone': ..., 'problem_id': ..., 'contrib': ...})` with
Python's default separators and (3.7+) dict insertion order. -/
def dumpsTask (t : TaskItem) : List Char :=
  "\x7b\"phone\": \"".data ++ escString t.phone
    ++ "\", \"problem_id\": \"".data ++ escString t.problem_id
    ++ "\", \"contrib\": \"".data ++ escString t.contrib
    ++ "\"\x7d".data

/-- Model of `json.loads` of a queue item followed by the worker's field accesses
`data['phone']`, `data['problem_id']`, `data['contrib']`; `none` models
both a `json.JSONDecodeError` and a decoded value of the wrong shape. -/
def loadsTask (l : List Char) : Option TaskItem :=
  match expectLit "\x7b\"phone\": \"".data l with
  | none => none
  | some r1 =>
    match parseJStr r1 with
    | none => none
    | some (ph, r2) =>
      match expectLit ", \"problem_id\": \"".data r2 with
      | none => none
      | some r3 =>
        match parseJStr r3 with
        | none => none
        | some (pid, r4) =>
          match expectLit ", \"contrib\": \"".data r4 with
          | none => none
          | some r5 =>
            match parseJStr r5 with
            | none => none
            | some (ct, r6) =>
              if r6 = "\x7d".data then some ⟨ph, pid, ct⟩ else none

/-! ## Work queue (Redis list `tasks`)

`r.rpush('tasks', item)` appends at the right (tail) of the list;
`r.blpop('tasks', timeout=1)` atomically removes and returns the leftmost
(head) element, or returns `None` once the timeout elapses with the list
empty.  The list state is the queue, head first. -/

/-- Model of `r.rpush('tasks', item)`: append at the tail. -/
def push (q : List (List Char)) (item : List Char) : List (List Char) :=
  q ++ [item]

/-- Model of `r.blpop('tasks', timeout)`: atomically pop the head, or time out with
`none` on an empty list; returns the popped element (if any) and the
remaining queue. -/
def popBlocking (q : List (List Char)) : Option (List Char) × List (List Char) :=
  match q with
  | [] => (none, [])
  | x :: xs => (some x, xs)

/-! ## Environment and durable state -/

/-- Failure modes of the clarifier call (`openai.ChatCompletion.create`). -/
inductive ClarifyErr
  | upstreamTimeout
  | upstreamError
  | rateLimited
deriving DecidableEq, Repr

/-- Errors the intake endpoint can surface (the exception that propagates
out of `sms_reply` after the `except` clause rolls back and re-raises). -/
inductive SmsErr
  | storageUnavailable
  | clarifyFailure (e : ClarifyErr)
  | sendFailure
deriving DecidableEq, Repr

/-- Outcomes of the external calls made during one request: the clarifier
response (by prompt), whether `db.commit()` succeeds, whether `r.rpush`
succeeds, and whether a given `twilio.messages.create` succeeds. -/
structure Env where
  clarify : List Char → Except ClarifyErr (List Char)
  commitOk : Bool
  rpushOk : Bool
  sendOk : List Char → List Char → Bool

/-- Durable state touched by the intake endpoint: the `subscribers` and
`problems` tables, the Redis `tasks` list, and the record of outbound
Twilio messages actually sent (recipient, body), in send order. -/
structure St where
  subscribers : List Subscriber
  problems : List Problem
  tasks : List (List Char)
  sent : List (List Char × List Char)
deriving DecidableEq, Repr

/-- Body of the subscription-confirmation SMS. -/
def subscribedBody : List Char := "Subscribed to Millennium Problems updates.".data

/-- The HTTP response of the unrecognized branch. -/
def formatHint : List Char := "Format: <problem_id>: <your idea>".data

/-- The clarifier prompt built by the f-string
`f'Clarify this contribution for problem \x7bpid\x7d: \x7bcontrib\x7d'`. -/
def clarifyPrompt (pid contrib : List Char) : List Char :=
  "Clarify this contribution for problem ".data ++ pid ++ ": ".data ++ contrib

/-- Body of the contribution acknowledgment SMS
(`f'Contribution received for Problem \x7bpid.strip()\x7d. Queued for review.'`). -/
def ackBody (pid : List Char) : List Char :=
  "Contribution received for Problem ".data ++ pyStrip pid ++ ". Queued for review.".data

/-! ## The intake endpoint `sms_reply` -/

/-- Embedding of `sms_reply(From, Body)` (src/sms/main.py lines 60-104).

* sender unknown: `db.add(Subscriber(phone=From)); db.commit()`, then the
  confirmation SMS, then respond `"Subscribed"`;
* sender known and `':' in Body`: `pid, contrib = Body.split(':', 1)`,
  clarify via the LLM, `r.rpush('tasks', json.dumps(...))` with
  `problem_id=pid.strip()` and `contrib=clarified`, then the
  acknowledgment SMS, then respond `"Received"`;
* sender known, no colon: respond with the format hint, no side effect.

A failing external call raises; the `except` clause rolls back the open
session and re-raises, so the error propagates with every side effect
that already committed kept and nothing later performed.  The result is
the endpoint's response (or the propagated error) with the final state. -/
def sms_reply (env : Env) (From Body : List Char) (st : St) :
    Except SmsErr (List Char) × St :=
  match findSubscriber st.subscribers From with
  | none =>
    if env.commitOk then
      let st1 := { st with subscribers := st.subscribers ++ [⟨From, true⟩] }
      if env.sendOk From subscribedBody then
        (.ok "Subscribed".data, { st1 with sent := st1.sent ++ [(From, subscribedBody)] })
      else (.error .sendFailure, st1)
    else (.error .storageUnavailable, st)
  | some _ =>
    match splitFirst ':' Body with
    | some (pid, contrib) =>
      match env.clarify (clarifyPrompt pid contrib) with
      | .error e => (.error (.clarifyFailure e), st)
      | .ok clarified =>
        if env.rpushOk then
          let item := dumpsTask ⟨From, pyStrip pid, clarified⟩
          let st1 := { st with tasks := push st.tasks item }
          if env.sendOk From (ackBody pid) then
            (.ok "Received".data, { st1 with sent := st1.sent ++ [(From, ackBody pid)] })
          else (.error .sendFailure, st1)
        else (.error .storageUnavailable, st)
    | none => (.ok formatHint, st)

/-! ## The problem-registration endpoint `add_problem` -/

/-- Database error surfaced when a commit violates a constraint. -/
inductive DbErr
  | integrityError
deriving DecidableEq, Repr

/-- The autoincrement key: strictly larger than every existing id. -/
def nextProblemId (ps : List Problem) : Nat :=
  (ps.map Problem.id).foldr max 0 + 1

/-- Embedding of `add_problem(p)` (src/sms/main.py lines 111-125):
`db.add(Problem(name=p.name, description=p.description)); db.commit()`.
The `unique=True` constraint on `Problem.name` makes the commit fail with
an integrity error when a row with the same name already exists; the
`except` clause rolls back (leaving the table unchanged) and re-raises.
Returns the response (the new row's id) or the error, with the table. -/
def add_problem (name description : List Char) (ps : List Problem) :
    Except DbErr Nat × List Problem :=
  if ps.any (fun p => decide (p.name = name)) then
    (.error .integrityError, ps)
  else
    (.ok (nextProblemId ps), ps ++ [⟨nextProblemId ps, name, description, true⟩])

/-! ## One iteration of the worker loop `process_tasks` -/

/-- Worker-side observable state: the Redis `tasks` list, the outbound
messages sent, and the log lines printed by the `except` handlers. -/
structure WSt where
  tasks : List (List Char)
  sent : List (List Char × List Char)
  log : List (List Char)
deriving DecidableEq, Repr

/-- Log line of the `except json.JSONDecodeError` handler. -/
def jsonErrLog : List Char := "Error decoding JSON".data

/-- Log line of the generic `except Exception` handler. -/
def taskErrLog : List Char := "Error processing task".data

/-- The placeholder feasibility evaluation (`feasible = True`) and the
resulting notification body. -/
def feasibilityMsg : List Char := "Accepted and credited.".data

/-- Embedding of one iteration of the `while True` loop of
`process_tasks` (src/sms/main.py lines 138-175).  `blpop` either times
out (no side effect beyond the idle sleep) or yields an item; the item is
decoded, the feasibility placeholder runs, and the result notification is
sent.  `json.JSONDecodeError` (and any shape error on the field accesses)
is caught and logged; a failing Twilio send is caught and logged by the
generic handler.  In every case the loop continues: the function is total
and never re-enqueues the popped item. -/
def process_tasks_step (sendOk : List Char → List Char → Bool) (st : WSt) : WSt :=
  match popBlocking st.tasks with
  | (none, q) => { st with tasks := q }
  | (some item, q) =>
    match loadsTask item with
    | none => { st with tasks := q, log := st.log ++ [jsonErrLog] }
    | some data =>
      if sendOk data.phone feasibilityMsg then
        { st with tasks := q, sent := st.sent ++ [(data.phone, feasibilityMsg)] }
      else
        { st with tasks := q, log := st.log ++ [taskErrLog] }

/-! ## Concrete fixtures used by the witnesses and counterexamples -/

/-- A Twilio send that always succeeds. -/
def sendAlways : List Char → List Char → Bool := fun _ _ => true

/-- A Twilio send that always fails (the API call raises). -/
def sendNever : List Char → List Char → Bool := fun _ _ => false

/-- Environment in which every external call succeeds and the clarifier
rewrites every contribution to the fixed text `CLARIFIED`. -/
def envHappy : Env :=
  { clarify := fun _ => .ok "CLARIFIED".data
    commitOk := true
    rpushOk := true
    sendOk := sendAlways }

/-- Environment in which the clarifier call times out. -/
def envClarFail : Env := { envHappy with clarify := fun _ => .error .upstreamTimeout }

/-- Environment in which `db.commit()` fails. -/
def envCommitFail : Env := { envHappy with commitOk := false }

/-- Environment in which `r.rpush` fails. -/
def envPushFail : Env := { envHappy with rpushOk := false }

/-- A state with one existing subscriber `+1` and nothing else. -/
def stT : St :=
  { subscribers := [⟨"+1".data, true⟩], problems := [], tasks := [], sent := [] }

/-- A problem table already holding a problem named `Riemann`. -/
def probsT : List Problem := [⟨1, "Riemann".data, "zeta zeros".data, true⟩]

/-- A worker state whose queue holds one undecodable item. -/
def wStBad : WSt := { tasks := ["notjson".data], sent := [], log := [] }

/-- A worker state whose queue holds one well-formed item. -/
def wStGood : WSt :=
  { tasks := [dumpsTask ⟨"+1".data, "42".data, "CLARIFIED".data⟩], sent := [], log := [] }

/-! ## Supporting lemmas -/

theorem expectLit_append (lit rest : List Char) : expectLit lit (lit ++ rest) = some rest := by
  induction lit with
  | nil => rfl
  | cons c cs ih => simp [expectLit, ih]

theorem hexVal_hexDigit (n : Nat) (h : n < 16) : hexVal (hexDigit n) = some n := by
  interval_cases n <;> decide

theorem parseJStr_quote (rest : List Char) : parseJStr ('"' :: rest) = some ([], rest) := by
  conv_lhs => rw [parseJStr.eq_def]
  simp

theorem parseJStr_esc_quote (rest : List Char) :
    parseJStr ('\\' :: '"' :: rest) = (parseJStr rest).map (fun p => ('"' :: p.1, p.2)) := by
  conv_lhs => rw [parseJStr.eq_def]
  simp

theorem parseJStr_esc_bs (rest : List Char) :
    parseJStr ('\\' :: '\\' :: rest) = (parseJStr rest).map (fun p => ('\\' :: p.1, p.2)) := by
  conv_lhs => rw [parseJStr.eq_def]
  simp

theorem parseJStr_esc_b (rest : List Char) :
    parseJStr ('\\' :: 'b' :: rest) = (parseJStr rest).map (fun p => ('\x08' :: p.1, p.2)) := by
  conv_lhs => rw [parseJStr.eq_def]
  simp

theorem parseJStr_esc_f (rest : List Char) :
    parseJStr ('\\' :: 'f' :: rest) = (parseJStr rest).map (fun p => ('\x0c' :: p.1, p.2)) := by
  conv_lhs => rw [parseJStr.eq_def]
  simp

theorem parseJStr_esc_n (rest : List Char) :
    parseJStr ('\\' :: 'n' :: rest) = (parseJStr rest).map (fun p => ('\n' :: p.1, p.2)) := by
  conv_lhs => rw [parseJStr.eq_def]
  simp

theorem parseJStr_esc_r (rest : List Char) :
    parseJStr ('\\' :: 'r' :: rest) = (parseJStr rest).map (fun p => ('\x0d' :: p.1, p.2)) := by
  conv_lhs => rw [parseJStr.eq_def]
  simp

theorem parseJStr_esc_t (rest : List Char) :
    parseJStr ('\\' :: 't' :: rest) = (parseJStr rest).map (fun p => ('\t' :: p.1, p.2)) := by
  conv_lhs => rw [parseJStr.eq_def]
  simp

theorem parseJStr_esc_u (h1 h2 h3 h4 : Char) (rest : List Char) (a b c2 d : Nat)
    (hv1 : hexVal h1 = some a) (hv2 : hexVal h2 = some b)
    (hv3 : hexVal h3 = some c2) (hv4 : hexVal h4 = some d) :
    parseJStr ('\\' :: 'u' :: h1 :: h2 :: h3 :: h4 :: rest)
      = (parseJStr rest).map
          (fun p => (Char.ofNat (((a * 16 + b) * 16 + c2) * 16 + d) :: p.1, p.2)) := by
  conv_lhs => rw [parseJStr.eq_def]
  simp [hv1, hv2, hv3, hv4]

theorem parseJStr_lit (c : Char) (rest : List Char)
    (h1 : ¬c = '"') (h2 : ¬c = '\\') (h3 : ¬c.toNat < 32) :
    parseJStr (c :: rest) = (parseJStr rest).map (fun p => (c :: p.1, p.2)) := by
  conv_lhs => rw [parseJStr.eq_def]
  simp [h1, h2, h3]

theorem parseJStr_escString (s : List Char) (rest : List Char) :
    parseJStr (escString s ++ '"' :: rest) = some (s, rest) := by
  induction s generalizing rest with
  | nil => simp [escString, parseJStr_quote]
  | cons c cs ih =>
    by_cases h1 : c = '"'
    · subst h1; simp [escString, escChar, parseJStr_esc_quote, ih]
    · by_cases h2 : c = '\\'
      · subst h2; simp [escString, escChar, parseJStr_esc_bs, ih]
      · by_cases h3 : c = '\x08'
        · subst h3; simp [escString, escChar, parseJStr_esc_b, ih]
        · by_cases h4 : c = '\x0c'
          · subst h4; simp [escString, escChar, parseJStr_esc_f, ih]
          · by_cases h5 : c = '\n'
            · subst h5; simp [escString, escChar, parseJStr_esc_n, ih]
            · by_cases h6 : c = '\x0d'
              · subst h6; simp [escString, escChar, parseJStr_esc_r, ih]
              · by_cases h7 : c = '\t'
                · subst h7; simp [escString, escChar, parseJStr_esc_t, ih]
                · by_cases h8 : c.toNat < 32
                  · have hd1 : hexVal (hexDigit (c.toNat / 16)) = some (c.toNat / 16) :=
                      hexVal_hexDigit _ (by omega)
                    have hd2 : hexVal (hexDigit (c.toNat % 16)) = some (c.toNat % 16) :=
                      hexVal_hexDigit _ (by omega)
                    have hd0 : hexVal '0' = some 0 := by decide
                    have harith : c.toNat / 16 * 16 + c.toNat % 16 = c.toNat := by omega
                    simp [escString, escChar, h1, h2, h3, h4, h5, h6, h7, h8,
                      parseJStr_esc_u '0' '0' _ _ _ 0 0 (c.toNat / 16) (c.toNat % 16)
                        hd0 hd0 hd1 hd2,
                      ih, harith, Char.ofNat_toNat]
                  · simp [escString, escChar, h1, h2, h3, h4, h5, h6, h7, h8,
                      parseJStr_lit c _ h1 h2 h8, ih]

theorem findSubscriber_none {l : List Subscriber} {ph : List Char}
    (h : findSubscriber l ph = none) : ∀ s ∈ l, s.phone ≠ ph := by
  induction l with
  | nil => simp
  | cons a rest ih =>
    intro s hs
    unfold findSubscriber at h
    by_cases ha : a.phone = ph
    · simp [ha] at h
    · simp [ha] at h
      rw [List.mem_cons] at hs
      rcases hs with rfl | hs
      · exact ha
      · exact ih h s hs

theorem splitFirst_eq {sep : Char} :
    ∀ {B pr ft : List Char}, splitFirst sep B = some (pr, ft) →
      B = pr ++ sep :: ft ∧ sep ∉ pr := by
  intro B
  induction B with
  | nil => intro pr ft h; simp [splitFirst] at h
  | cons c cs ih =>
    intro pr ft h
    unfold splitFirst at h
    by_cases hc : c = sep
    · rw [if_pos hc] at h
      obtain ⟨rfl, rfl⟩ := Option.some.inj h
      simp [hc]
    · rw [if_neg hc] at h
      rcases hsp : splitFirst sep cs with _ | ⟨pr', ft'⟩
      · rw [hsp] at h; simp at h
      · rw [hsp] at h
        have h' : (c :: pr', ft') = (pr, ft) := by simpa using h
        obtain ⟨hB, hnotin⟩ := ih hsp
        cases h'
        refine ⟨by simp [hB], ?_⟩
        intro hmem
        rcases List.mem_cons.mp hmem with hx | hx
        · exact hc hx.symm
        · exact hnotin hx

/-! ## Claim theorems -/

/-- C10: queue-item serialization round-trips — for every QueuedContribution
the intake handler pushes (origin phone, problem reference, contribution
text serialized to JSON), the worker's decode yields exactly the same
`phone`, `problem_id` and `contrib` values. -/
theorem C10_queue_item_roundtrip (t : TaskItem) : loadsTask (dumpsTask t) = some t := by
  obtain ⟨ph, pid, ct⟩ := t
  unfold dumpsTask loadsTask
  simp [List.append_assoc, expectLit, parseJStr_escString]

/-- C5: the Work Queue is FIFO with destructive atomic pop — `push` appends
at the tail, `popBlocking` on an empty queue returns `none` (after the
timeout, without raising), and a `push` followed by `popBlocking` returns
exactly that item exactly once: an immediately following `popBlocking` on
the then-empty queue returns `none`. -/
theorem C5_queue_fifo_destructive_pop (it a b : List Char) :
    popBlocking ([] : List (List Char)) = (none, []) ∧
    (∀ q : List (List Char), push q it = q ++ [it]) ∧
    popBlocking (push [] it) = (some it, []) ∧
    popBlocking (popBlocking (push [] it)).2 = (none, []) ∧
    popBlocking (push (push [] a) b) = (some a, [b]) := by
  simp [push, popBlocking]

/-- C9: problem name uniqueness is enforced at write time — registering a
problem whose name equals an existing problem's name fails with an
integrity error and the table is left unchanged. -/
theorem C9_problem_name_unique (n d : List Char) (ps : List Problem)
    (h : ∃ p ∈ ps, p.name = n) :
    add_problem n d ps = (.error .integrityError, ps) := by
  have hany : ps.any (fun p => decide (p.name = n)) = true := by
    rw [List.any_eq_true]
    obtain ⟨p, hp, he⟩ := h
    exact ⟨p, hp, by simp [he]⟩
  simp [add_problem, hany]

/-- Witness for C9: registering a second problem named `Riemann` fails and
leaves the table unchanged. -/
theorem C9_witness :
    add_problem "Riemann".data "another description".data probsT
      = (.error .integrityError, probsT) :=
  C9_problem_name_unique _ _ _
    ⟨⟨1, "Riemann".data, "zeta zeros".data, true⟩, by decide, by decide⟩

/-- C6: a message body from an existing subscriber containing no colon gets
the format-hint response and the handler terminates with no state
mutation: no queue push and no Subscriber or Problem write. -/
theorem C6_unrecognized_no_mutation (env : Env) (From Body : List Char) (st : St)
    (s : Subscriber) (hfind : findSubscriber st.subscribers From = some s)
    (hnc : splitFirst ':' Body = none) :
    sms_reply env From Body st = (.ok formatHint, st) := by
  simp [sms_reply, hfind, hnc]

/-- Witness for C6 on body `not formatted at all` from existing
subscriber `+1`: the state is returned untouched. -/
theorem C6_witness :
    sms_reply envHappy "+1".data "not formatted at all".data stT = (.ok formatHint, stT) :=
  C6_unrecognized_no_mutation envHappy _ _ stT ⟨"+1".data, true⟩ (by decide) (by decide)

/-- C2: a message from a sender absent from the registry creates the
subscriber record, sends the subscription confirmation, and terminates
without parsing the body and without pushing any queue item — for every
body, including bodies matching the contribution format. -/
theorem C2_new_sender_is_subscription_only (env : Env) (From Body : List Char) (st : St)
    (habs : findSubscriber st.subscribers From = none)
    (hcommit : env.commitOk = true)
    (hsend : env.sendOk From subscribedBody = true) :
    sms_reply env From Body st =
      (.ok "Subscribed".data,
        { st with subscribers := st.subscribers ++ [⟨From, true⟩],
                  sent := st.sent ++ [(From, subscribedBody)] }) := by
  simp [sms_reply, habs, hcommit, hsend]

/-- Witness for C2: the first message of new sender `+2` has a body in the
contribution format, yet only the subscription happens — the tasks queue
stays empty in the resulting state. -/
theorem C2_witness :
    sms_reply envHappy "+2".data "42: idea".data stT =
      (.ok "Subscribed".data,
        { stT with subscribers := stT.subscribers ++ [⟨"+2".data, true⟩],
                   sent := stT.sent ++ [("+2".data, subscribedBody)] }) :=
  C2_new_sender_is_subscription_only envHappy _ _ stT (by decide) rfl rfl

/-- C1 counterexample: existing subscriber `+1` sends `42: idea`, the
clarifier times out, and — contrary to the claim — nothing is pushed to
the Work Queue, no acknowledgment is sent, and the error propagates. -/
theorem C1_counterexample :
    findSubscriber stT.subscribers "+1".data = some ⟨"+1".data, true⟩ ∧
    (splitFirst ':' "42: idea".data).isSome = true ∧
    envClarFail.clarify (clarifyPrompt "42".data " idea".data) = .error .upstreamTimeout ∧
    (sms_reply envClarFail "+1".data "42: idea".data stT).2.tasks = [] ∧
    (sms_reply envClarFail "+1".data "42: idea".data stT).2.sent = [] ∧
    (sms_reply envClarFail "+1".data "42: idea".data stT).1
      = .error (.clarifyFailure .upstreamTimeout) :=
  ⟨by decide, by decide, rfl, by decide, by decide, rfl⟩

/-- C1 amended: when the Clarifier call fails for a formatted contribution
from an existing subscriber, the exception propagates — the contribution
is NOT pushed to the Work Queue, no acknowledgment is sent, and the state
is unchanged (there is no degrade-to-raw-text path in the code). -/
theorem C1_clarifier_failure_drops (env : Env) (From Body : List Char) (st : St)
    (s : Subscriber) (pr ft : List Char) (e : ClarifyErr)
    (hfind : findSubscriber st.subscribers From = some s)
    (hsp : splitFirst ':' Body = some (pr, ft))
    (hcl : env.clarify (clarifyPrompt pr ft) = .error e) :
    sms_reply env From Body st = (.error (.clarifyFailure e), st) := by
  simp [sms_reply, hfind, hsp, hcl]

/-- Witness for the amended C1 at the concrete timeout scenario. -/
theorem C1_witness :
    sms_reply envClarFail "+1".data "42: idea".data stT
      = (.error (.clarifyFailure .upstreamTimeout), stT) :=
  C1_clarifier_failure_drops envClarFail _ _ stT ⟨"+1".data, true⟩ "42".data " idea".data
    .upstreamTimeout (by decide) (by decide) rfl

/-- Helper: when the sender is an existing subscriber, no branch of the
intake handler writes to the subscriber table. -/
theorem sms_reply_subscribers_of_found (env : Env) (From Body : List Char) (st : St)
    (s : Subscriber) (hfind : findSubscriber st.subscribers From = some s) :
    (sms_reply env From Body st).2.subscribers = st.subscribers := by
  rcases hsp : splitFirst ':' Body with _ | ⟨pr, ft⟩
  · simp [sms_reply, hfind, hsp]
  · rcases hcl : env.clarify (clarifyPrompt pr ft) with e | cl
    · simp [sms_reply, hfind, hsp, hcl]
    · by_cases hr : env.rpushOk
      · by_cases hs : env.sendOk From (ackBody pr) <;>
          simp [sms_reply, hfind, hsp, hcl, hr, hs]
      · simp [sms_reply, hfind, hsp, hcl, hr]

/-- C3: the outbound acknowledgment is sent only after the preceding
durable write succeeded — if anything was sent, the registry insert or the
queue push is present in the resulting state; and when the durable write
of the taken branch fails, the handler surfaces a storage error and
neither sends anything nor changes the state. -/
theorem C3_ack_only_after_durable_write (env : Env) (From Body : List Char) (st : St) :
    ((sms_reply env From Body st).2.sent ≠ st.sent →
      (sms_reply env From Body st).2.subscribers = st.subscribers ++ [⟨From, true⟩] ∨
      ∃ item, (sms_reply env From Body st).2.tasks = push st.tasks item) ∧
    (findSubscriber st.subscribers From = none → env.commitOk = false →
      (sms_reply env From Body st).1 = .error .storageUnavailable ∧
      (sms_reply env From Body st).2 = st) ∧
    (∀ s pr ft cl, findSubscriber st.subscribers From = some s →
      splitFirst ':' Body = some (pr, ft) →
      env.clarify (clarifyPrompt pr ft) = .ok cl → env.rpushOk = false →
      (sms_reply env From Body st).1 = .error .storageUnavailable ∧
      (sms_reply env From Body st).2 = st) := by
  refine ⟨?_, ?_, ?_⟩
  · intro hsent
    rcases hfind : findSubscriber st.subscribers From with _ | s
    · by_cases hc : env.commitOk
      · left
        by_cases hs : env.sendOk From subscribedBody <;>
          simp [sms_reply, hfind, hc, hs]
      · exact absurd (by simp [sms_reply, hfind, hc]) hsent
    · rcases hsp : splitFirst ':' Body with _ | ⟨pr, ft⟩
      · exact absurd (by simp [sms_reply, hfind, hsp]) hsent
      · rcases hcl : env.clarify (clarifyPrompt pr ft) with e | cl
        · exact absurd (by simp [sms_reply, hfind, hsp, hcl]) hsent
        · by_cases hr : env.rpushOk
          · right
            refine ⟨dumpsTask ⟨From, pyStrip pr, cl⟩, ?_⟩
            by_cases hs : env.sendOk From (ackBody pr) <;>
              simp [sms_reply, hfind, hsp, hcl, hr, hs]
          · exact absurd (by simp [sms_reply, hfind, hsp, hcl, hr]) hsent
  · intro habs hc
    constructor <;> simp [sms_reply, habs, hc]
  · intro s pr ft cl hfind hsp hcl hr
    constructor <;> simp [sms_reply, hfind, hsp, hcl, hr]

/-- Witness for C3: the registry commit fails for new sender `+2`, the
handler surfaces the storage error and the state (including the sent
list) is unchanged. -/
theorem C3_witness :
    (sms_reply envCommitFail "+2".data "hello".data stT).1 = .error .storageUnavailable ∧
    (sms_reply envCommitFail "+2".data "hello".data stT).2 = stT :=
  (C3_ack_only_after_durable_write envCommitFail _ _ stT).2.1 (by decide) rfl

/-- C7: the worker loop survives bad items and failed notifications — a
popped item that fails to decode is logged and discarded (never
re-enqueued, the queue advances to the remaining items), and a failed
result notification is logged without re-enqueueing; in both cases the
next iteration processes the rest of the queue. -/
theorem C7_worker_discards_and_continues (sendOk : List Char → List Char → Bool)
    (st : WSt) (item : List Char) (rest : List (List Char))
    (hq : st.tasks = item :: rest) :
    (process_tasks_step sendOk st).tasks = rest ∧
    (loadsTask item = none →
      process_tasks_step sendOk st
        = { st with tasks := rest, log := st.log ++ [jsonErrLog] }) ∧
    (∀ d, loadsTask item = some d → sendOk d.phone feasibilityMsg = false →
      process_tasks_step sendOk st
        = { st with tasks := rest, log := st.log ++ [taskErrLog] }) := by
  refine ⟨?_, ?_, ?_⟩
  · unfold process_tasks_step
    rw [hq]
    rcases hload : loadsTask item with _ | d
    · simp [popBlocking, hload]
    · by_cases hs : sendOk d.phone feasibilityMsg <;> simp [popBlocking, hload, hs]
  · intro hload
    unfold process_tasks_step
    rw [hq]
    simp [popBlocking, hload]
  · intro d hload hs
    unfold process_tasks_step
    rw [hq]
    simp [popBlocking, hload, hs]

/-- Witness for C7: a queue holding the single undecodable item `notjson`
is drained, the item is logged and discarded, and the queue is empty
afterwards (not re-enqueued). -/
theorem C7_witness :
    process_tasks_step sendAlways wStBad
      = { wStBad with tasks := [], log := wStBad.log ++ [jsonErrLog] } :=
  (C7_worker_discards_and_continues sendAlways wStBad "notjson".data [] (by decide)).2.1
    (by decide)

/-- C8: the registry holds at most one record per identity and creation is
idempotent — the handler preserves distinctness of the stored phone
numbers, and a message from an identity that already has a record leaves
the subscriber table unchanged. -/
theorem C8_registry_at_most_one_record (env : Env) (From Body : List Char) (st : St) :
    ((st.subscribers.map Subscriber.phone).Nodup →
      (((sms_reply env From Body st).2).subscribers.map Subscriber.phone).Nodup) ∧
    (∀ s, findSubscriber st.subscribers From = some s →
      ((sms_reply env From Body st).2).subscribers = st.subscribers) := by
  constructor
  · intro hnd
    rcases hfind : findSubscriber st.subscribers From with _ | s
    · have hnotin : ∀ s ∈ st.subscribers, s.phone ≠ From := findSubscriber_none hfind
      have hgoal : ((st.subscribers ++ [Subscriber.mk From true]).map Subscriber.phone).Nodup := by
        rw [List.map_append, List.nodup_append]
        refine ⟨hnd, by simp, ?_⟩
        intro a ha hb
        simp at hb
        obtain ⟨s', hs', hphone⟩ := List.mem_map.mp ha
        exact hnotin s' hs' (hphone.trans hb)
      by_cases hc : env.commitOk
      · by_cases hs : env.sendOk From subscribedBody <;>
          simpa [sms_reply, hfind, hc, hs] using hgoal
      · simpa [sms_reply, hfind, hc] using hnd
    · rw [sms_reply_subscribers_of_found env From Body st s hfind]
      exact hnd
  · intro s hfind
    exact sms_reply_subscribers_of_found env From Body st s hfind

/-- Witness for C8: a second message from the already-registered sender
`+1` leaves the subscriber table unchanged. -/
theorem C8_witness :
    (sms_reply envHappy "+1".data "hello again".data stT).2.subscribers = stT.subscribers :=
  (C8_registry_at_most_one_record envHappy "+1".data "hello again".data stT).2
    (Subscriber.mk "+1".data true) (by decide)

/-- C4 counterexample: existing subscriber `+1` sends
`42: improve the bound using X` in an environment whose clarifier returns
`CLARIFIED`; the single queued item decodes to `problem_id = 42` but its
contribution text is the clarifier output `CLARIFIED`, not the trimmed
free text `improve the bound using X` the claim requires. -/
theorem C4_counterexample :
    (sms_reply envHappy "+1".data "42: improve the bound using X".data stT).2.tasks
      = [dumpsTask (TaskItem.mk "+1".data "42".data "CLARIFIED".data)] ∧
    loadsTask (dumpsTask (TaskItem.mk "+1".data "42".data "CLARIFIED".data))
      = some (TaskItem.mk "+1".data "42".data "CLARIFIED".data) ∧
    "CLARIFIED".data ≠ "improve the bound using X".data := by
  refine ⟨by decide, by decide, by decide⟩

/-- C4 amended: the body is split only on the FIRST colon — problemRef is
everything before it and freeText everything after, internal colons
preserved — but only problemRef is trimmed (in the queued item and the
acknowledgment); freeText is passed untrimmed to the Clarifier and the
queued item's content is the Clarifier's output, not the raw freeText. -/
theorem C4_split_first_colon_clarified (env : Env) (From Body : List Char) (st : St)
    (s : Subscriber) (pr ft cl : List Char)
    (hfind : findSubscriber st.subscribers From = some s)
    (hsp : splitFirst ':' Body = some (pr, ft))
    (hcl : env.clarify (clarifyPrompt pr ft) = .ok cl)
    (hr : env.rpushOk = true)
    (hs : env.sendOk From (ackBody pr) = true) :
    Body = pr ++ ':' :: ft ∧ ':' ∉ pr ∧
    (sms_reply env From Body st).2.tasks
      = push st.tasks (dumpsTask (TaskItem.mk From (pyStrip pr) cl)) ∧
    (sms_reply env From Body st).2.sent = st.sent ++ [(From, ackBody pr)] ∧
    (sms_reply env From Body st).1 = .ok "Received".data := by
  obtain ⟨hB, hnc⟩ := splitFirst_eq hsp
  refine ⟨hB, hnc, ?_, ?_, ?_⟩ <;> simp [sms_reply, hfind, hsp, hcl, hr, hs]

/-- Witness for the amended C4 on the claim's own example body. -/
theorem C4_witness :
    "42: improve the bound using X".data
        = "42".data ++ ':' :: " improve the bound using X".data ∧
    ':' ∉ "42".data ∧
    (sms_reply envHappy "+1".data "42: improve the bound using X".data stT).2.tasks
      = push stT.tasks
          (dumpsTask (TaskItem.mk "+1".data (pyStrip "42".data) "CLARIFIED".data)) ∧
    (sms_reply envHappy "+1".data "42: improve the bound using X".data stT).2.sent
      = stT.sent ++ [("+1".data, ackBody "42".data)] ∧
    (sms_reply envHappy "+1".data "42: improve the bound using X".data stT).1
      = .ok "Received".data :=
  C4_split_first_colon_clarified envHappy _ _ stT (Subscriber.mk "+1".data true)
    "42".data " improve the bound using X".data "CLARIFIED".data
    (by decide) (by decide) rfl rfl rfl

end MathForge
